import Mathlib

/-!
Verification development for the `ai-emotion-detector` CLI (src/app.js).

The program is embedded shallowly as trace-producing functions:
* `Json` models the decoded JSON response payloads.
* `Event` models the observable actions of the process (HTTP calls, the
  blocking sleep, console output, interactive prompts).
* `testModel` models the function of the same name (src/app.js lines 16-41):
  the HTTP response a call receives is supplied by an `oracle : Nat → HttpOutcome`
  giving the outcome of the k-th HTTP POST issued by the run, and the
  serialized body of an error response is modelled as the string
  `JSON.stringify(error.response.data)` already rendered.
* `tryModels` models the candidate loop of `analyzeSentiment`
  (src/app.js lines 47-100) including the inline result formatting; a thrown
  formatting error (e.g. `item.label.replace` on `undefined`) is recorded in
  the `threw` flag and aborts the run, exactly as the uncaught exception does.
* `mainRun` models the whole process: the module-level token print
  (src/app.js line 14), `main` (lines 125-163) and the interactive loop, where
  the lines the user types are supplied as a list.
-/

namespace App

/-- JSON values as decoded from a response body.  Scores are modelled as exact
rationals; JS doubles only diverge from this at rounding ties, which no claim
exercises.  Field lists are assumed duplicate-free, as produced by JSON
parsing. -/
inductive Json where
| str (s : String)
| num (q : ℚ)
| arr (xs : List Json)
| obj (fields : List (String × Json))

/-- Outcome of one HTTP request, supplied by the environment.  For a non-2xx
response, `body` stands for `JSON.stringify(error.response.data)`; for a
transport failure, `msg` is `error.message`. -/
inductive HttpOutcome where
| ok (payload : Json)
| httpErr (status : Nat) (body : String)
| netErr (msg : String)

/-- Result value of `testModel` (src/app.js lines 16-41). -/
inductive AttemptResult where
| ok (data : Json) (model : String)
| err (error : String) (model : String)

/-- Outcome of `validateToken`'s whoami request (src/app.js lines 105-123). -/
inductive WhoamiOutcome where
| ok (name : String)
| httpErr (status : Nat) (body : String)
| netErr (msg : String)

/-- Observable actions of the process, in order of occurrence. -/
inductive Event where
| httpPost (model : String) (text : String)
| httpGet (url : String)
| sleep (ms : Nat)
| log (s : String)
| logErr (s : String)
| logJson (tag : String) (j : Json)
| logPair (a : String) (b : String)
| prompt

/-- `error.includes(sub)`: `isPrefixList p l` is `true` when `p` is a prefix
of `l`. -/
def isPrefixList : List Char → List Char → Bool
| [], _ => true
| _ :: _, [] => false
| a :: as, b :: bs => a == b && isPrefixList as bs

/-- `hasSubstring l p` is `true` when `p` occurs contiguously inside `l`. -/
def hasSubstring : List Char → List Char → Bool
| [], p => isPrefixList p []
| c :: rest, p => isPrefixList p (c :: rest) || hasSubstring rest p

/-- JS `s.includes(pat)`. -/
def strIncludes (s pat : String) : Bool :=
  hasSubstring s.data pat.data

/-- The whitespace characters recognised by the model of JS `trim`
(the ASCII whitespace set; full Unicode whitespace is not needed here). -/
def isWsChar (c : Char) : Bool :=
  c == ' ' || c == '\t' || c == '\n' || c == '\r' || c == '\x0b' || c == '\x0c'

/-- JS `s.trim()`: strip leading and trailing whitespace. -/
def jsTrim (s : String) : String :=
  ⟨((s.data.dropWhile isWsChar).reverse.dropWhile isWsChar).reverse⟩

/-- ASCII lower-casing of one character (JS `toLowerCase` restricted to the
ASCII range, which covers the `quit` / `exit` comparisons). -/
def lowerChar (c : Char) : Char :=
  if 'A' ≤ c ∧ c ≤ 'Z' then Char.ofNat (c.toNat + 32) else c

/-- JS `s.toLowerCase()` (ASCII). -/
def jsToLower (s : String) : String :=
  ⟨s.data.map lowerChar⟩

/-- JS `s.replace(pat, rep)` with a string pattern: replace the first
occurrence only (list version). -/
def replFirst (pat rep : List Char) : List Char → List Char
| [] => if isPrefixList pat [] then rep else []
| c :: cs =>
  if isPrefixList pat (c :: cs) then rep ++ (c :: cs).drop pat.length
  else c :: replFirst pat rep cs

/-- JS `s.replace(pat, rep)` with a string pattern (first occurrence only). -/
def replFirstStr (s pat rep : String) : String :=
  ⟨replFirst pat.data rep.data s.data⟩

/-- Value of one decimal digit character. -/
def digitVal (c : Char) : Option Nat :=
  if '0' ≤ c ∧ c ≤ '9' then some (c.toNat - 48) else none

/-- Parse a run of decimal digits (accumulator form); fails on any
non-digit. -/
def parseDigitsAcc (acc : Nat) : List Char → Option Nat
| [] => some acc
| c :: cs =>
  match digitVal c with
  | some d => parseDigitsAcc (10 * acc + d) cs
  | none => none

/-- Split a character list at the first `.`, returning the part before it and
(when a dot is present) the part after it. -/
def splitDot : List Char → List Char × Option (List Char)
| [] => ([], none)
| c :: rest =>
  if c == '.' then ([], some rest)
  else
    let p := splitDot rest
    (c :: p.1, p.2)

/-- Parse an unsigned JS decimal literal (`digits`, `digits.digits`,
`.digits`, `digits.`).  Exponent, hex and `Infinity` forms are not modelled
(they would parse; no claim exercises them) and yield `none` = NaN. -/
def parseUnsigned (l : List Char) : Option ℚ :=
  let p := splitDot l
  match p.2 with
  | none =>
    if p.1 = [] then none
    else (parseDigitsAcc 0 p.1).map (fun n => (n : ℚ))
  | some fp =>
    if p.1 = [] ∧ fp = [] then none
    else
      match parseDigitsAcc 0 p.1, parseDigitsAcc 0 fp with
      | some n, some f => some ((n : ℚ) + (f : ℚ) / (10 : ℚ) ^ fp.length)
      | _, _ => none

/-- Parse an optionally signed JS decimal literal. -/
def parseSigned : List Char → Option ℚ
| '+' :: rest => parseUnsigned rest
| '-' :: rest => (parseUnsigned rest).map Neg.neg
| l => parseUnsigned l

/-- JS `Number(string)`: trim, empty string is `0`, otherwise a signed decimal
literal; `none` stands for NaN. -/
def parseJsNumber (s : String) : Option ℚ :=
  let t := jsTrim s
  if t = "" then some 0 else parseSigned t.data

/-- JS `ToNumber` on our JSON universe; `none` stands for NaN.  A
single-element array coerces through its element's string form, modelled for
primitive elements (deeper nesting, which JS would flatten further, is mapped
to NaN; no payload in this development nests scores); multi-element arrays
and objects stringify to non-numeric text. -/
def jsToNumber : Json → Option ℚ
| .num q => some q
| .str s => parseJsNumber s
| .arr [] => some 0
| .arr [.num q] => some q
| .arr [.str s] => parseJsNumber s
| .arr _ => none
| .obj _ => none

/-- JS `ToNumber` applied to a possibly-absent field (`undefined` is NaN). -/
def jsNumOf : Option Json → Option ℚ
| none => none
| some j => jsToNumber j

/-- JS `x.toFixed(2)` on an exact rational: the integer `n` with `n / 100`
closest to `x`, ties toward the larger `n`, rendered with two decimals. -/
def toFixed2 (x : ℚ) : String :=
  let n : Int := ⌊(100 : ℚ) * x + 1 / 2⌋
  let m : Nat := n.natAbs
  (if n < 0 then "-" else "") ++ Nat.repr (m / 100) ++ "." ++
    (if m % 100 < 10 then "0" else "") ++ Nat.repr (m % 100)

/-- Property access `j.name` for the fields the formatter reads; every
non-object value yields `undefined` here. -/
def lookupField : List (String × Json) → String → Option Json
| [], _ => none
| (k, v) :: rest, name => if k = name then some v else lookupField rest name

/-- JS `item.label` / `item.score`. -/
def getField (j : Json) (name : String) : Option Json :=
  match j with
  | .obj fs => lookupField fs name
  | _ => none

/-- The rendered `(item.score * 100).toFixed(2)` text. -/
def scoreText (o : Option Json) : String :=
  match jsNumOf o with
  | some q => toFixed2 (q * 100)
  | none => "NaN"

/-- One iteration of the `data.forEach(item => ...)` body
(src/app.js lines 62-65).  `none` models the `TypeError` thrown when
`item.label` is not a string (`.replace` on a non-string). -/
def formatItem (item : Json) : Option Event :=
  match getField item "label" with
  | some (.str l) =>
    some (Event.log (" - " ++ replFirstStr (replFirstStr l "LABEL_" "") "_" " " ++ ": " ++
      scoreText (getField item "score") ++ "%"))
  | _ => none

/-- The `forEach` over classification items: the events printed before a
throw, and whether a throw occurred. -/
def formatItems : List Json → List Event × Bool
| [] => ([], false)
| item :: rest =>
  match formatItem item with
  | some ev => (ev :: (formatItems rest).1, (formatItems rest).2)
  | none => ([], true)

/-- Result formatting on the first-attempt success path
(src/app.js lines 57-72): the three-way shape dispatch with its two fallback
branches. -/
def formatResult (d : Json) : List Event × Bool :=
  match d with
  | .arr (d0 :: _) =>
    match d0 with
    | .arr items => formatItems items
    | _ => ([Event.logJson " - Result: " d0], false)
  | _ => ([Event.logJson " - Raw response: " d], false)

/-- Result formatting on the post-retry success path
(src/app.js lines 87-95): same shape tests but with no `else` branches, so
non-classification shapes print nothing. -/
def formatRetryResult (d : Json) : List Event × Bool :=
  match d with
  | .arr (d0 :: _) =>
    match d0 with
    | .arr items => formatItems items
    | _ => ([], false)
  | _ => ([], false)

/-- `testModel` (src/app.js lines 16-41) applied to the response the
environment returns for this call: a success carries the payload, a failure
carries the error description string
`status + ": " + JSON.stringify(data)` or the transport message. -/
def testModel (resp : HttpOutcome) (model : String) : AttemptResult :=
  match resp with
  | .ok d => .ok d model
  | .httpErr st body => .err (Nat.repr st ++ ": " ++ body) model
  | .netErr msg => .err msg model

/-- How a probe run ended: first HTTP success (with its model and payload), or
all candidates exhausted. -/
inductive RunOutcome where
| success (model : String) (data : Json)
| exhausted

/-- Result of running the candidate loop: its event trace, the index of the
next HTTP POST the process would issue, the outcome, and whether formatting
threw (aborting the process). -/
structure ProbeResult where
  events : List Event
  nextIdx : Nat
  outcome : RunOutcome
  threw : Bool

/-- The candidate banner events printed on a first-attempt success
(src/app.js lines 53-54). -/
def successBanner (model text : String) : List Event :=
  [Event.log ("✅ Success with model: " ++ model),
   Event.log ("\n📊 Sentiment Result for: \"" ++ text ++ "\"")]

/-- The banner events printed on a post-retry success
(src/app.js lines 84-85). -/
def retryBanner (model text : String) : List Event :=
  [Event.log ("✅ Success with model after retry: " ++ model),
   Event.log ("\n📊 Sentiment Result for: \"" ++ text ++ "\"")]

/-- The `for (const model of MODELS)` loop of `analyzeSentiment`
(src/app.js lines 47-100).  `k` is the index of the next HTTP POST; the
oracle gives each call's outcome.  On a failure whose description contains
`503` the loop sleeps 10 s and retries the same model once. -/
def tryModels (oracle : Nat → HttpOutcome) (text : String) :
    List String → Nat → ProbeResult
| [], k => ⟨[], k, .exhausted, false⟩
| model :: rest, k =>
  let pre := [Event.log ("🔍 Trying model: " ++ model), Event.httpPost model text]
  match testModel (oracle k) model with
  | .ok d _ =>
    ⟨pre ++ successBanner model text ++ (formatResult d).1, k + 1,
     .success model d, (formatResult d).2⟩
  | .err e _ =>
    let failEv := Event.log ("❌ Failed with " ++ model ++ ": " ++ e)
    if strIncludes e "503" then
      let waitEvs := [Event.log "⏳ Model is loading, waiting 10 seconds...",
                      Event.sleep 10000, Event.httpPost model text]
      match testModel (oracle (k + 1)) model with
      | .ok d _ =>
        ⟨pre ++ [failEv] ++ waitEvs ++ retryBanner model text ++ (formatRetryResult d).1,
         k + 2, .success model d, (formatRetryResult d).2⟩
      | .err _ _ =>
        let r := tryModels oracle text rest (k + 2)
        ⟨pre ++ [failEv] ++ waitEvs ++ r.events, r.nextIdx, r.outcome, r.threw⟩
    else
      let r := tryModels oracle text rest (k + 1)
      ⟨pre ++ [failEv] ++ r.events, r.nextIdx, r.outcome, r.threw⟩

/-- The fixed candidate list (src/app.js lines 6-11). -/
def MODELS : List String :=
  ["cardiffnlp/twitter-roberta-base-sentiment-latest",
   "distilbert-base-uncased-finetuned-sst-2-english",
   "cardiffnlp/twitter-roberta-base-sentiment",
   "nlptown/bert-base-multilingual-uncased-sentiment"]

/-- The terminal exhaustion message (src/app.js line 102). -/
def allFailedMsg : String :=
  "❌ All models failed. Please check your internet connection and API token."

/-- `analyzeSentiment` (src/app.js lines 43-103): the opening banner, the
candidate loop over `MODELS`, and the exhaustion error printed only when the
loop completes without a success. -/
def analyzeSentimentRun (oracle : Nat → HttpOutcome) (text : String) (k : Nat) :
    ProbeResult :=
  let r := tryModels oracle text MODELS k
  { events := Event.log "🔄 Analyzing sentiment..." ::
      (r.events ++
        (match r.outcome with
         | RunOutcome.exhausted => [Event.logErr allFailedMsg]
         | _ => [])),
    nextIdx := r.nextIdx, outcome := r.outcome, threw := r.threw }

/-- `validateToken` (src/app.js lines 105-123): one whoami GET and the
resulting console output; the function returns `true` on every path, so the
caller never stops here (the model therefore carries no return value). -/
def validateTokenEvents (who : WhoamiOutcome) : List Event :=
  Event.httpGet "https://huggingface.co/api/whoami" ::
    match who with
    | .ok name => [Event.log ("✅ Token valid for user: " ++ name)]
    | .httpErr st body =>
      [Event.logErr "❌ Token validation failed:",
       Event.logErr ("Status: " ++ Nat.repr st),
       Event.logErr ("Data: " ++ body),
       Event.log "⚠️ Proceeding anyway to test the inference API directly..."]
    | .netErr msg =>
      [Event.logErr "❌ Token validation failed:",
       Event.logErr ("Error: " ++ msg),
       Event.log "⚠️ Proceeding anyway to test the inference API directly..."]

/-- The interactive loop (src/app.js lines 148-162) run on a finite script of
input lines; the trace ends when the script does.  A thrown formatting error
propagates out of the loop, so no further lines are processed after it. -/
def loopRun (oracle : Nat → HttpOutcome) : List String → Nat → List Event
| [], _ => []
| line :: rest, k =>
  Event.prompt ::
    (if jsToLower line = "quit" ∨ jsToLower line = "exit" then
      [Event.log "👋 Goodbye!"]
    else if jsTrim line = "" then
      Event.log "⚠️ Please enter a valid sentence." :: loopRun oracle rest k
    else
      let r := analyzeSentimentRun oracle line k
      r.events ++ (if r.threw then [] else loopRun oracle rest r.nextIdx))

/-- The raw environment token; `none` models an unset variable. -/
def tokStr : Option String → String
| none => "undefined"
| some s => s

/-- JS falsiness of `TOKEN` (src/app.js line 130): unset or empty. -/
def tokenFalsy : Option String → Bool
| none => true
| some s => s == ""

/-- The whole process: the module-level `console.log("token: ", TOKEN)`
(src/app.js line 14) followed by `main` (lines 125-163).  `validateToken`
always returns `true`, so the `if (!isValidToken) return` never fires and is
not modelled as a branch. -/
def mainRun (token : Option String) (who : WhoamiOutcome)
    (oracle : Nat → HttpOutcome) (inputs : List String) : List Event :=
  Event.logPair "token: " (tokStr token) ::
  Event.log "🤖 AI Sentiment Analysis Tool" ::
  Event.log "===============================" ::
    (if tokenFalsy token then
      [Event.logErr "❌ Error: HUGGINGFACE_TOKEN not found in .env file",
       Event.log "Please add your Hugging Face token to the .env file:",
       Event.log "HUGGINGFACE_TOKEN=your_token_here"]
    else
      Event.log "🔐 Validating API token..." ::
        (validateTokenEvents who ++
          (Event.log "🧪 Testing API with a simple sentence..." ::
            (let r := analyzeSentimentRun oracle "I love this!" 0
             r.events ++ (if r.threw then [] else loopRun oracle inputs r.nextIdx)))))

/-- Recogniser for HTTP POST events. -/
def isPost : Event → Bool
| .httpPost _ _ => true
| _ => false

/-- Recogniser for network events of any kind. -/
def isNetEvent : Event → Bool
| .httpPost _ _ => true
| .httpGet _ => true
| _ => false

/-- Recogniser for sleep events. -/
def isSleepEv : Event → Bool
| .sleep _ => true
| _ => false

/-- Recogniser for `console.error` events. -/
def isLogErrEv : Event → Bool
| .logErr _ => true
| _ => false

/-- Recogniser for plain `console.log` output (the only events the inline
formatter produces). -/
def isPlainLogEv : Event → Bool
| .log _ => true
| .logJson _ _ => true
| _ => false

/-- Number of HTTP POSTs in a trace. -/
def postCount (evs : List Event) : Nat := evs.countP (fun e => isPost e)

/-- Number of HTTP POSTs addressed to a given model. -/
def postsTo (m : String) (evs : List Event) : Nat :=
  evs.countP (fun e =>
    match e with
    | .httpPost m2 _ => m2 == m
    | _ => false)

/-- Number of network calls (POST or GET) in a trace. -/
def networkCalls (evs : List Event) : Nat := evs.countP (fun e => isNetEvent e)

/-- Number of sleeps in a trace. -/
def sleepCount (evs : List Event) : Nat := evs.countP (fun e => isSleepEv e)

/-- Number of prompts in a trace. -/
def promptCount (evs : List Event) : Nat :=
  evs.countP (fun e =>
    match e with
    | .prompt => true
    | _ => false)

/-- Number of `console.error` events carrying exactly the given message. -/
def logErrCount (s : String) (evs : List Event) : Nat :=
  evs.countP (fun e =>
    match e with
    | .logErr s2 => s2 == s
    | _ => false)

/-- Number of candidates whose first attempt fails with an error description
containing the characters `503`, following the loop's own call-index
progression (each such candidate consumes two calls). -/
def count503First (oracle : Nat → HttpOutcome) : List String → Nat → Nat
| [], _ => 0
| model :: rest, k =>
  match testModel (oracle k) model with
  | .ok _ _ => count503First oracle rest (k + 1)
  | .err e _ =>
    if strIncludes e "503" then 1 + count503First oracle rest (k + 2)
    else count503First oracle rest (k + 1)

/-- Classification-shape test used to state the Formatter claims: the payload
is a non-empty array whose first element is an array, returning those
items. -/
def tier1Items : Json → Option (List Json)
| .arr (.arr items :: _) => some items
| _ => none

/-- The first element of a non-empty array payload when that element is not
itself an array (the middle fallback tier). -/
def headNonArr : Json → Option Json
| .arr (d0 :: _) =>
  match d0 with
  | .arr _ => none
  | d0 => some d0
| _ => none

/-- Whether the payload is a non-empty array at all. -/
def isNonEmptyArr : Json → Bool
| .arr (_ :: _) => true
| _ => false

/-- Environment where call 0 gets a 503 and the retry succeeds. -/
def claim1Oracle : Nat → HttpOutcome := fun k =>
  if k = 0 then HttpOutcome.httpErr 503 "loading" else HttpOutcome.ok (Json.num 1)

/-- Environment where every call fails with a plain 404. -/
def notFoundOracle : Nat → HttpOutcome := fun _ =>
  HttpOutcome.httpErr 404 "not found"

/-- Environment where call 0 fails with status 500 but a body that mentions
503, and later calls fail with 404. -/
def claim2CexOracle : Nat → HttpOutcome := fun k =>
  if k = 0 then HttpOutcome.httpErr 500 "error 503 while loading"
  else HttpOutcome.httpErr 404 "not found"

/-- Environment where every call fails with status 500 and a body that
mentions 503. -/
def claim4CexOracle : Nat → HttpOutcome := fun _ =>
  HttpOutcome.httpErr 500 "error 503 while loading"

/-- Environment where every call succeeds with a plain numeric payload. -/
def okOracle : Nat → HttpOutcome := fun _ => HttpOutcome.ok (Json.num 3)

/-- Environment where every call fails at the transport level. -/
def offlineOracle : Nat → HttpOutcome := fun _ => HttpOutcome.netErr "offline"

/-! Helper lemmas. -/

/-- A plain-log event is none of the other event kinds. -/
lemma plain_props {e : Event} (h : isPlainLogEv e = true) :
    isPost e = false ∧ isNetEvent e = false ∧ isSleepEv e = false ∧
      isLogErrEv e = false ∧ e ≠ Event.prompt := by
  cases e <;> simp_all [isPlainLogEv, isPost, isNetEvent, isSleepEv, isLogErrEv]

/-- Every event the `forEach` body prints is a plain log line. -/
lemma formatItems_plain (items : List Json) :
    ∀ e ∈ (formatItems items).1, isPlainLogEv e = true := by
  induction items with
  | nil => simp [formatItems]
  | cons item rest ih =>
    cases h : formatItem item with
    | none => simp [formatItems, h]
    | some ev =>
      have hev : isPlainLogEv ev = true := by
        rcases hg : getField item "label" with _ | j
        · simp [formatItem, hg] at h
        · cases j <;> simp [formatItem, hg] at h
          rw [← h]; rfl
      intro e he
      simp only [formatItems, h] at he
      rcases List.mem_cons.mp he with rfl | he2
      · exact hev
      · exact ih e he2

/-- Every event the first-attempt formatter prints is a plain log line. -/
lemma formatResult_plain (d : Json) :
    ∀ e ∈ (formatResult d).1, isPlainLogEv e = true := by
  cases d with
  | arr xs =>
    cases xs with
    | nil => simp [formatResult, isPlainLogEv]
    | cons d0 rest =>
      cases d0 <;> simp [formatResult, isPlainLogEv]
      exact fun e he => formatItems_plain _ e he
  | str s => simp [formatResult, isPlainLogEv]
  | num q => simp [formatResult, isPlainLogEv]
  | obj fs => simp [formatResult, isPlainLogEv]

/-- Every event the retry-path formatter prints is a plain log line. -/
lemma formatRetryResult_plain (d : Json) :
    ∀ e ∈ (formatRetryResult d).1, isPlainLogEv e = true := by
  cases d with
  | arr xs =>
    cases xs with
    | nil => simp [formatRetryResult]
    | cons d0 rest =>
      cases d0 <;> simp [formatRetryResult]
      exact fun e he => formatItems_plain _ e he
  | str s => simp [formatRetryResult]
  | num q => simp [formatRetryResult]
  | obj fs => simp [formatRetryResult]

/-- A list of plain log lines contributes nothing to a count of other event
kinds. -/
lemma countP_zero_of_plain {p : Event → Bool}
    (hp : ∀ e, isPlainLogEv e = true → p e = false)
    (evs : List Event) (h : ∀ e ∈ evs, isPlainLogEv e = true) :
    evs.countP p = 0 := by
  rw [List.countP_eq_zero]
  intro a ha
  simp [hp a (h a ha)]

/-- The first-attempt formatter issues no HTTP POST. -/
lemma postCount_formatResult (d : Json) : postCount (formatResult d).1 = 0 :=
  countP_zero_of_plain (fun e h => (plain_props h).1) _ (formatResult_plain d)

/-- The retry-path formatter issues no HTTP POST. -/
lemma postCount_formatRetryResult (d : Json) :
    postCount (formatRetryResult d).1 = 0 :=
  countP_zero_of_plain (fun e h => (plain_props h).1) _ (formatRetryResult_plain d)

/-- The retry-path formatter sleeps never. -/
lemma sleepCount_formatRetryResult (d : Json) :
    sleepCount (formatRetryResult d).1 = 0 :=
  countP_zero_of_plain (fun e h => (plain_props h).2.2.1) _ (formatRetryResult_plain d)

/-- An error description built from status 503 contains the characters
`503`. -/
lemma strIncludes_503_repr (body : String) :
    strIncludes (Nat.repr 503 ++ ": " ++ body) "503" = true := by
  show hasSubstring (Nat.repr 503 ++ ": " ++ body).data "503".data = true
  rw [show (Nat.repr 503 ++ ": " ++ body).data =
    '5' :: '0' :: '3' :: ':' :: ' ' :: body.data from rfl]
  rw [show "503".data = ['5', '0', '3'] from rfl]
  simp [hasSubstring, isPrefixList]

/-- Recogniser for prompt events. -/
def isPromptEv : Event → Bool
| .prompt => true
| _ => false

/-- Events the candidate loop may emit: anything except a `console.error` or a
prompt. -/
def benignB (e : Event) : Bool := !isLogErrEv e && !isPromptEv e

@[simp] lemma isPost_log (s : String) : isPost (.log s) = false := rfl

@[simp] lemma isPost_logJson (t : String) (j : Json) : isPost (.logJson t j) = false := rfl

@[simp] lemma isPost_sleep (ms : Nat) : isPost (.sleep ms) = false := rfl

@[simp] lemma isPost_httpPost (m t : String) : isPost (.httpPost m t) = true := rfl

@[simp] lemma isPost_logErr (s : String) : isPost (.logErr s) = false := rfl

@[simp] lemma benignB_log (s : String) : benignB (.log s) = true := rfl

@[simp] lemma benignB_logJson (t : String) (j : Json) : benignB (.logJson t j) = true := rfl

@[simp] lemma benignB_sleep (ms : Nat) : benignB (.sleep ms) = true := rfl

@[simp] lemma benignB_httpPost (m t : String) : benignB (.httpPost m t) = true := rfl

/-- A plain log line is benign. -/
lemma plain_benign {e : Event} (h : isPlainLogEv e = true) : benignB e = true := by
  cases e <;> simp_all [isPlainLogEv, benignB, isLogErrEv, isPromptEv]

/-- The `forEach` output is benign. -/
lemma all_benign_formatItems (items : List Json) :
    (formatItems items).1.all benignB = true :=
  List.all_eq_true.mpr fun e he => plain_benign (formatItems_plain items e he)

/-- The first-attempt formatter output is benign. -/
@[simp] lemma all_benign_formatResult (d : Json) :
    (formatResult d).1.all benignB = true :=
  List.all_eq_true.mpr fun e he => plain_benign (formatResult_plain d e he)

/-- The retry-path formatter output is benign. -/
@[simp] lemma all_benign_formatRetryResult (d : Json) :
    (formatRetryResult d).1.all benignB = true :=
  List.all_eq_true.mpr fun e he => plain_benign (formatRetryResult_plain d e he)

/-- The candidate loop prints no `console.error` and shows no prompt: every
event in its trace is a probe action or a plain log line. -/
lemma tryModels_all_benign (oracle : Nat → HttpOutcome) (text : String) :
    ∀ (models : List String) (k : Nat),
      ((tryModels oracle text models k).events.all benignB) = true := by
  intro models
  induction models with
  | nil => intro k; simp [tryModels]
  | cons m rest ih =>
    intro k
    rcases hm : testModel (oracle k) m with ⟨d, m1⟩ | ⟨err, m1⟩
    · simp [tryModels, hm, successBanner]
    · by_cases h5 : strIncludes err "503"
      · rcases hr : testModel (oracle (k + 1)) m with ⟨d, m2⟩ | ⟨e2, m2⟩
        · simp [tryModels, hm, h5, hr, retryBanner]
        · simp [tryModels, hm, h5, hr, ih]
      · simp [tryModels, hm, h5, ih]

/-- A benign trace contains no prompt. -/
lemma benign_no_prompt {evs : List Event} (h : evs.all benignB = true) :
    Event.prompt ∉ evs := by
  intro hmem
  have := List.all_eq_true.mp h _ hmem
  simp [benignB, isPromptEv] at this

/-- A benign trace contains no `console.error` with any message. -/
lemma benign_logErrCount {evs : List Event} (h : evs.all benignB = true)
    (s : String) : logErrCount s evs = 0 := by
  rw [logErrCount, List.countP_eq_zero]
  intro e he
  have := List.all_eq_true.mp h e he
  cases e <;> simp_all [benignB, isLogErrEv]

/-- When the loop exhausts every candidate, the number of POSTs it issued is
the number of candidates plus the number of first attempts whose error
description contained `503`. -/
lemma tryModels_exhausted_postCount (oracle : Nat → HttpOutcome) (text : String) :
    ∀ (models : List String) (k : Nat),
      (tryModels oracle text models k).outcome = RunOutcome.exhausted →
      postCount (tryModels oracle text models k).events =
        models.length + count503First oracle models k := by
  intro models
  induction models with
  | nil => intro k _; simp [tryModels, count503First, postCount]
  | cons m rest ih =>
    intro k h
    rcases hm : testModel (oracle k) m with ⟨d, m1⟩ | ⟨err, m1⟩
    · simp [tryModels, hm] at h
    · by_cases h5 : strIncludes err "503"
      · rcases hr : testModel (oracle (k + 1)) m with ⟨d, m2⟩ | ⟨e2, m2⟩
        · simp [tryModels, hm, h5, hr] at h
        · have h2 : (tryModels oracle text rest (k + 2)).outcome = RunOutcome.exhausted := by
            simpa [tryModels, hm, h5, hr] using h
          have h3 := ih (k + 2) h2
          simp only [postCount] at h3 ⊢
          simp [tryModels, hm, h5, hr, count503First, List.countP_append,
            List.countP_cons, h3]
          omega
      · have h2 : (tryModels oracle text rest (k + 1)).outcome = RunOutcome.exhausted := by
          simpa [tryModels, hm, h5] using h
        have h3 := ih (k + 1) h2
        simp only [postCount] at h3 ⊢
        simp [tryModels, hm, h5, count503First, List.countP_append,
          List.countP_cons, h3]
        omega

/-! Counting lemmas over traces. -/

@[simp] lemma postCount_nil : postCount [] = 0 := rfl

@[simp] lemma postCount_cons (e : Event) (evs : List Event) :
    postCount (e :: evs) = postCount evs + (if isPost e then 1 else 0) :=
  List.countP_cons ..

@[simp] lemma postCount_append (l l2 : List Event) :
    postCount (l ++ l2) = postCount l + postCount l2 :=
  List.countP_append ..

@[simp] lemma isSleepEv_log (s : String) : isSleepEv (.log s) = false := rfl

@[simp] lemma isSleepEv_logJson (t : String) (j : Json) :
    isSleepEv (.logJson t j) = false := rfl

@[simp] lemma isSleepEv_httpPost (m t : String) : isSleepEv (.httpPost m t) = false := rfl

@[simp] lemma isSleepEv_sleep (ms : Nat) : isSleepEv (.sleep ms) = true := rfl

@[simp] lemma sleepCount_nil : sleepCount [] = 0 := rfl

@[simp] lemma sleepCount_cons (e : Event) (evs : List Event) :
    sleepCount (e :: evs) = sleepCount evs + (if isSleepEv e then 1 else 0) :=
  List.countP_cons ..

@[simp] lemma sleepCount_append (l l2 : List Event) :
    sleepCount (l ++ l2) = sleepCount l + sleepCount l2 :=
  List.countP_append ..

@[simp] lemma postsTo_nil (m : String) : postsTo m [] = 0 := rfl

lemma postsTo_cons (m : String) (e : Event) (evs : List Event) :
    postsTo m (e :: evs) =
      postsTo m evs +
        (if (match e with
             | Event.httpPost m2 _ => m2 == m
             | _ => false) then 1 else 0) :=
  List.countP_cons ..

lemma postsTo_append (m : String) (l l2 : List Event) :
    postsTo m (l ++ l2) = postsTo m l + postsTo m l2 :=
  List.countP_append ..

@[simp] lemma logErrCount_nil (s : String) : logErrCount s [] = 0 := rfl

lemma logErrCount_cons (s : String) (e : Event) (evs : List Event) :
    logErrCount s (e :: evs) =
      logErrCount s evs +
        (if (match e with
             | Event.logErr s2 => s2 == s
             | _ => false) then 1 else 0) :=
  List.countP_cons ..

lemma logErrCount_append (s : String) (l l2 : List Event) :
    logErrCount s (l ++ l2) = logErrCount s l + logErrCount s l2 :=
  List.countP_append ..

/-- The retry-path formatter posts to no model. -/
lemma postsTo_formatRetryResult (m : String) (d : Json) :
    postsTo m (formatRetryResult d).1 = 0 := by
  rw [postsTo, List.countP_eq_zero]
  intro e he
  have hp := formatRetryResult_plain d e he
  cases e <;> simp_all [isPlainLogEv]

/-- The first-attempt formatter posts to no model. -/
lemma postsTo_formatResult (m : String) (d : Json) :
    postsTo m (formatResult d).1 = 0 := by
  rw [postsTo, List.countP_eq_zero]
  intro e he
  have hp := formatResult_plain d e he
  cases e <;> simp_all [isPlainLogEv]

/-- The first-attempt formatter sleeps never. -/
lemma sleepCount_formatResult (d : Json) : sleepCount (formatResult d).1 = 0 :=
  countP_zero_of_plain (fun e h => (plain_props h).2.2.1) _ (formatResult_plain d)

/-! Claim theorems. -/

/-- C1: for every candidate whose first call fails with HTTP status 503, the
Prober sleeps 10 seconds (one `sleep 10000` event) and then issues exactly one
additional call to the same candidate — two POSTs for that candidate in all,
no more, no less.  If the retry succeeds the run returns success for that
candidate with the retry payload; if the retry also fails, the trace continues
exactly with the next candidate's run and the overall outcome is that run's
outcome. -/
theorem claim1_503_single_retry (oracle : Nat → HttpOutcome) (text model : String)
    (rest : List String) (k : Nat) (body : String)
    (h : oracle k = HttpOutcome.httpErr 503 body) :
    (∀ d : Json, oracle (k + 1) = HttpOutcome.ok d →
      (tryModels oracle text (model :: rest) k).outcome = RunOutcome.success model d ∧
      postCount (tryModels oracle text (model :: rest) k).events = 2 ∧
      postsTo model (tryModels oracle text (model :: rest) k).events = 2 ∧
      sleepCount (tryModels oracle text (model :: rest) k).events = 1) ∧
    (∀ e2 : String, testModel (oracle (k + 1)) model = AttemptResult.err e2 model →
      (tryModels oracle text (model :: rest) k).events =
        [Event.log ("🔍 Trying model: " ++ model), Event.httpPost model text,
         Event.log ("❌ Failed with " ++ model ++ ": " ++ (Nat.repr 503 ++ ": " ++ body)),
         Event.log "⏳ Model is loading, waiting 10 seconds...", Event.sleep 10000,
         Event.httpPost model text] ++ (tryModels oracle text rest (k + 2)).events ∧
      (tryModels oracle text (model :: rest) k).outcome =
        (tryModels oracle text rest (k + 2)).outcome) := by
  have hm : testModel (oracle k) model =
      AttemptResult.err (Nat.repr 503 ++ ": " ++ body) model := by rw [h]; rfl
  have h5 := strIncludes_503_repr body
  constructor
  · intro d hd
    have hr : testModel (oracle (k + 1)) model = AttemptResult.ok d model := by
      rw [hd]; rfl
    refine ⟨?_, ?_, ?_, ?_⟩
    · simp [tryModels, hm, h5, hr]
    · simp [tryModels, hm, h5, hr, retryBanner, postCount_formatRetryResult]
    · simp [tryModels, hm, h5, hr, retryBanner, postsTo_cons, postsTo_append,
        postsTo_formatRetryResult]
    · simp [tryModels, hm, h5, hr, retryBanner, sleepCount_formatRetryResult]
  · intro e2 he
    refine ⟨?_, ?_⟩ <;> simp [tryModels, hm, h5, he]

/-- Witness for C1 at a concrete 503-then-success environment. -/
theorem claim1_witness :
    (tryModels claim1Oracle "t" ["m"] 0).outcome = RunOutcome.success "m" (Json.num 1) ∧
    postCount (tryModels claim1Oracle "t" ["m"] 0).events = 2 ∧
    postsTo "m" (tryModels claim1Oracle "t" ["m"] 0).events = 2 ∧
    sleepCount (tryModels claim1Oracle "t" ["m"] 0).events = 1 :=
  (claim1_503_single_retry claim1Oracle "t" "m" [] 0 "loading" rfl).1 (Json.num 1) rfl

/-- C2 is false as stated: a first call failing with status 500 — not 503 and
not a transport error — still triggers a retry when the serialized error body
happens to contain the characters `503`, because the source tests
`result.error.includes('503')` on the combined description string.  Here the
candidate `m1` receives two POSTs instead of one. -/
theorem claim2_counterexample :
    claim2CexOracle 0 = HttpOutcome.httpErr 500 "error 503 while loading" ∧
    (500 : Nat) ≠ 503 ∧
    postsTo "m1" (tryModels claim2CexOracle "hi" ["m1", "m2"] 0).events = 2 := by
  refine ⟨rfl, by decide, ?_⟩
  rfl

/-- C2 (amended): for every candidate whose first call fails with an error
description that does not contain the characters `503` (the description is
`status: serialized-body` for HTTP failures and the transport message
otherwise), the Prober issues zero retries for that candidate — exactly one
POST to it — and advances immediately to the next candidate. -/
theorem claim2_no503_no_retry (oracle : Nat → HttpOutcome) (text model : String)
    (rest : List String) (k : Nat) (e : String)
    (h : testModel (oracle k) model = AttemptResult.err e model)
    (h5 : strIncludes e "503" = false) :
    (tryModels oracle text (model :: rest) k).events =
      [Event.log ("🔍 Trying model: " ++ model), Event.httpPost model text,
       Event.log ("❌ Failed with " ++ model ++ ": " ++ e)] ++
        (tryModels oracle text rest (k + 1)).events ∧
    (tryModels oracle text (model :: rest) k).outcome =
      (tryModels oracle text rest (k + 1)).outcome ∧
    postsTo model
      [Event.log ("🔍 Trying model: " ++ model), Event.httpPost model text,
       Event.log ("❌ Failed with " ++ model ++ ": " ++ e)] = 1 := by
  refine ⟨?_, ?_, ?_⟩ <;> simp [tryModels, h, h5, postsTo_cons]

/-- Witness for the amended C2 at a concrete 404 environment. -/
theorem claim2_witness :
    (tryModels notFoundOracle "t" ["m"] 0).events =
      [Event.log ("🔍 Trying model: " ++ "m"), Event.httpPost "m" "t",
       Event.log ("❌ Failed with " ++ "m" ++ ": " ++ "404: not found")] ++
        (tryModels notFoundOracle "t" [] 1).events ∧
    (tryModels notFoundOracle "t" ["m"] 0).outcome =
      (tryModels notFoundOracle "t" [] 1).outcome ∧
    postsTo "m"
      [Event.log ("🔍 Trying model: " ++ "m"), Event.httpPost "m" "t",
       Event.log ("❌ Failed with " ++ "m" ++ ": " ++ "404: not found")] = 1 :=
  claim2_no503_no_retry notFoundOracle "t" "m" [] 0 "404: not found" rfl rfl

/-- C3: whenever the first candidate's call succeeds, the Prober returns that
candidate's response and issues no further HTTP call: its outcome carries the
first model and payload and the whole trace holds exactly one POST.  The same
holds for the concrete run over the program's `MODELS` list, whose first
candidate is `cardiffnlp/twitter-roberta-base-sentiment-latest`. -/
theorem claim3_first_success (oracle : Nat → HttpOutcome) (text model : String)
    (rest : List String) (k : Nat) (d : Json)
    (h : oracle k = HttpOutcome.ok d) :
    (tryModels oracle text (model :: rest) k).outcome = RunOutcome.success model d ∧
    postCount (tryModels oracle text (model :: rest) k).events = 1 ∧
    (analyzeSentimentRun oracle text k).outcome =
      RunOutcome.success "cardiffnlp/twitter-roberta-base-sentiment-latest" d ∧
    postCount (analyzeSentimentRun oracle text k).events = 1 := by
  have hm : ∀ m : String, testModel (oracle k) m = AttemptResult.ok d m := by
    intro m; rw [h]; rfl
  have h1 : (tryModels oracle text (model :: rest) k).outcome =
      RunOutcome.success model d := by simp [tryModels, hm]
  have h2 : ∀ m2 rest2, postCount (tryModels oracle text (m2 :: rest2) k).events = 1 := by
    intro m2 rest2
    simp [tryModels, hm, successBanner, postCount_formatResult]
  have hout : (tryModels oracle text MODELS k).outcome =
      RunOutcome.success "cardiffnlp/twitter-roberta-base-sentiment-latest" d :=
    by simp [ MODELS, tryModels, hm]
  refine ⟨h1, h2 model rest, ?_, ?_⟩
  · simp [analyzeSentimentRun, hout]
  · simp only [analyzeSentimentRun, hout]
    have h3 := h2 "cardiffnlp/twitter-roberta-base-sentiment-latest"
      ["distilbert-base-uncased-finetuned-sst-2-english",
       "cardiffnlp/twitter-roberta-base-sentiment",
       "nlptown/bert-base-multilingual-uncased-sentiment"]
    simpa [ MODELS] using h3

/-- Witness for C3 at a concrete always-succeeding environment. -/
theorem claim3_witness :
    (tryModels okOracle "t" ["m"] 0).outcome = RunOutcome.success "m" (Json.num 3) ∧
    postCount (tryModels okOracle "t" ["m"] 0).events = 1 ∧
    (analyzeSentimentRun okOracle "t" 0).outcome =
      RunOutcome.success "cardiffnlp/twitter-roberta-base-sentiment-latest" (Json.num 3) ∧
    postCount (analyzeSentimentRun okOracle "t" 0).events = 1 :=
  claim3_first_success okOracle "t" "m" [] 0 (Json.num 3) rfl

/-- C4 is false as stated: with a single candidate whose only first attempt
fails with status 500 (so zero candidates "returned 503 on first attempt")
the run is exhausted after two POSTs, not `1 + 0 = 1`, because the body of
the 500 response contains the characters `503` and so triggers the retry. -/
theorem claim4_counterexample :
    claim4CexOracle 0 = HttpOutcome.httpErr 500 "error 503 while loading" ∧
    (tryModels claim4CexOracle "x" ["m"] 0).outcome = RunOutcome.exhausted ∧
    postCount (tryModels claim4CexOracle "x" ["m"] 0).events = 2 ∧
    (["m"] : List String).length + 0 ≠ 2 := by
  refine ⟨rfl, rfl, ?_, by decide⟩
  rfl

/-- C4 (amended): if every candidate fails (a failed post-retry attempt
counting as failure for its candidate), the run's outcome is exhaustion, the
program emits the single terminal failure message exactly once, and the total
number of HTTP calls equals the number of candidates plus the number of
candidates whose first attempt's error description contained the characters
`503` (each such candidate got exactly one retry). -/
theorem claim4_exhaustion_counts (oracle : Nat → HttpOutcome) (text : String)
    (models : List String) (k : Nat) :
    ((tryModels oracle text models k).outcome = RunOutcome.exhausted →
      postCount (tryModels oracle text models k).events =
        models.length + count503First oracle models k) ∧
    ((tryModels oracle text MODELS k).outcome = RunOutcome.exhausted →
      logErrCount allFailedMsg (analyzeSentimentRun oracle text k).events = 1 ∧
      postCount (analyzeSentimentRun oracle text k).events =
        MODELS.length + count503First oracle MODELS k) := by
  constructor
  · exact tryModels_exhausted_postCount oracle text models k
  · intro h
    have hb := tryModels_all_benign oracle text MODELS k
    have h0 := benign_logErrCount hb allFailedMsg
    have hcount := tryModels_exhausted_postCount oracle text MODELS k h
    constructor
    · simp [analyzeSentimentRun, h, logErrCount_cons, logErrCount_append, h0]
    · simp [analyzeSentimentRun, h, hcount]

/-- Witness for the amended C4 at a concrete always-404 environment. -/
theorem claim4_witness :
    postCount (tryModels notFoundOracle "t" ["a"] 0).events =
      (["a"] : List String).length + count503First notFoundOracle ["a"] 0 ∧
    logErrCount allFailedMsg (analyzeSentimentRun notFoundOracle "t" 0).events = 1 ∧
    postCount (analyzeSentimentRun notFoundOracle "t" 0).events =
      MODELS.length + count503First notFoundOracle MODELS 0 :=
  ⟨(claim4_exhaustion_counts notFoundOracle "t" ["a"] 0).1 rfl,
   (claim4_exhaustion_counts notFoundOracle "t" ["a"] 0).2 rfl⟩

/-- When every item carries a string label, the `forEach` completes without
throwing and prints exactly one line per item. -/
lemma formatItems_ok (items : List Json)
    (h : ∀ i ∈ items, ∃ s, getField i "label" = some (Json.str s)) :
    (formatItems items).2 = false ∧ (formatItems items).1.length = items.length := by
  induction items with
  | nil => simp [formatItems]
  | cons item rest ih =>
    obtain ⟨s, hs⟩ := h item (by simp)
    have hitem : formatItem item = some (Event.log (" - " ++
        replFirstStr (replFirstStr s "LABEL_" "") "_" " " ++ ": " ++
        scoreText (getField item "score") ++ "%")) := by
      simp [formatItem, hs]
    have ihr := ih (fun i hi => h i (by simp [hi]))
    simp [formatItems, hitem, ihr.1, ihr.2]

/-- C5 is false as stated: the Formatter can both raise an error and emit
nothing.  First, for the successful payload `[[42]]` — a non-empty sequence
whose first element is a sequence but not of label/score objects — the
first-attempt formatter throws (a `TypeError` from `item.label.replace`)
instead of degrading to serialized text, and the surrounding run aborts.
Second, on the post-retry success path the payload `{unexpected: shape}`
produces no output at all instead of a serialized dump, because the retry
branch has no fallback arms. -/
theorem claim5_counterexample :
    (formatResult (Json.arr [Json.arr [Json.num 42]])).2 = true ∧
    formatRetryResult (Json.obj [("unexpected", Json.str "shape")]) = ([], false) ∧
    (tryModels (fun _ => HttpOutcome.ok (Json.arr [Json.arr [Json.num 42]]))
      "x" ["m"] 0).threw = true :=
  ⟨rfl, rfl, rfl⟩

/-- C5 (amended): the first-attempt formatter degrades to serialized text
exactly when the payload is not a non-empty sequence whose first element is
itself a sequence — emitting the first element for a non-empty sequence and
the whole payload otherwise — and it raises no error on classification-shaped
payloads provided every item carries a string label (one line per item, in
order); an item without a string label raises an error.  The post-retry
formatter prints the same per-item lines on classification-shaped payloads
but emits nothing, rather than a serialized dump, on any other shape. -/
theorem claim5_formatter_amended (d : Json) :
    (∀ d0, headNonArr d = some d0 →
      formatResult d = ([Event.logJson " - Result: " d0], false)) ∧
    (isNonEmptyArr d = false →
      formatResult d = ([Event.logJson " - Raw response: " d], false)) ∧
    (tier1Items d = none → formatRetryResult d = ([], false)) ∧
    (∀ items, tier1Items d = some items →
      (∀ i ∈ items, ∃ s, getField i "label" = some (Json.str s)) →
      (formatResult d).2 = false ∧ (formatRetryResult d).2 = false ∧
      (formatResult d).1.length = items.length) := by
  refine ⟨?_, ?_, ?_, ?_⟩
  · intro d0 h0
    cases d with
    | arr xs =>
      cases xs with
      | nil => simp [headNonArr] at h0
      | cons x r =>
        cases x <;> simp [headNonArr] at h0 <;> rw [← h0] <;> rfl
    | str s => simp [headNonArr] at h0
    | num q => simp [headNonArr] at h0
    | obj fs => simp [headNonArr] at h0
  · intro h0
    cases d with
    | arr xs =>
      cases xs with
      | nil => rfl
      | cons x r => simp [isNonEmptyArr] at h0
    | str s => rfl
    | num q => rfl
    | obj fs => rfl
  · intro h0
    cases d with
    | arr xs =>
      cases xs with
      | nil => rfl
      | cons x r =>
        cases x with
        | arr its => simp [tier1Items] at h0
        | str s => rfl
        | num q => rfl
        | obj fs => rfl
    | str s => rfl
    | num q => rfl
    | obj fs => rfl
  · intro items h0 hl
    cases d with
    | arr xs =>
      cases xs with
      | nil => simp [tier1Items] at h0
      | cons x r =>
        cases x with
        | arr its =>
          have : its = items := by simpa [tier1Items] using h0
          subst this
          have hok := formatItems_ok its hl
          exact ⟨by simpa [formatResult] using hok.1,
                 by simpa [formatRetryResult] using hok.1,
                 by simpa [formatResult] using hok.2⟩
        | str s => simp [tier1Items] at h0
        | num q => simp [tier1Items] at h0
        | obj fs => simp [tier1Items] at h0
    | str s => simp [tier1Items] at h0
    | num q => simp [tier1Items] at h0
    | obj fs => simp [tier1Items] at h0

/-- Witness for the amended C5: an unexpected object-shaped payload degrades
to a serialized dump on the first-attempt path and to nothing on the retry
path. -/
theorem claim5_witness :
    formatResult (Json.obj [("unexpected", Json.str "shape")]) =
      ([Event.logJson " - Raw response: " (Json.obj [("unexpected", Json.str "shape")])],
        false) ∧
    formatRetryResult (Json.obj [("unexpected", Json.str "shape")]) = ([], false) :=
  ⟨(claim5_formatter_amended (Json.obj [("unexpected", Json.str "shape")])).2.1 rfl,
   (claim5_formatter_amended (Json.obj [("unexpected", Json.str "shape")])).2.2.1 rfl⟩

/-- The rendered score text for 0.987. -/
lemma toFixed2_987 : toFixed2 ((987 / 1000 : ℚ) * 100) = "98.70" := by
  have h : (⌊(100 : ℚ) * ((987 / 1000 : ℚ) * 100) + 1 / 2⌋ : Int) = 9870 := by
    norm_num
  simp only [toFixed2, h]
  rfl

/-- The rendered score text for 0.013. -/
lemma toFixed2_13 : toFixed2 ((13 / 1000 : ℚ) * 100) = "1.30" := by
  have h : (⌊(100 : ℚ) * ((13 / 1000 : ℚ) * 100) + 1 / 2⌋ : Int) = 130 := by
    norm_num
  simp only [toFixed2, h]
  rfl

/-- C6: for the payload `[[{label: LABEL_POSITIVE, score: 0.987}]]` the
Formatter emits the single line ` - POSITIVE: 98.70%` — the `LABEL_` prefix
stripped and the score rendered as a two-decimal percentage — and with a
second item appended the lines come out one per object in the original
order. -/
theorem claim6_roundtrip :
    formatResult (Json.arr [Json.arr [Json.obj
        [("label", Json.str "LABEL_POSITIVE"), ("score", Json.num (987 / 1000))]]]) =
      ([Event.log " - POSITIVE: 98.70%"], false) ∧
    formatResult (Json.arr [Json.arr
        [Json.obj [("label", Json.str "LABEL_POSITIVE"), ("score", Json.num (987 / 1000))],
         Json.obj [("label", Json.str "LABEL_NEGATIVE"), ("score", Json.num (13 / 1000))]]]) =
      ([Event.log " - POSITIVE: 98.70%", Event.log " - NEGATIVE: 1.30%"], false) := by
  have h1 : scoreText (some (Json.num (987 / 1000))) = "98.70" := by
    simp only [scoreText, jsNumOf, jsToNumber]
    exact toFixed2_987
  have h2 : scoreText (some (Json.num (13 / 1000))) = "1.30" := by
    simp only [scoreText, jsNumOf, jsToNumber]
    exact toFixed2_13
  constructor
  · simp [formatResult, formatItems, formatItem, getField, lookupField, h1]
    rfl
  · simp [formatResult, formatItems, formatItem, getField, lookupField, h1, h2]
    constructor <;> rfl

/-! Support lemmas for the main-process claims. -/

@[simp] lemma isNetEvent_log (s : String) : isNetEvent (.log s) = false := rfl

@[simp] lemma isNetEvent_logErr (s : String) : isNetEvent (.logErr s) = false := rfl

@[simp] lemma isNetEvent_logPair (a b : String) : isNetEvent (.logPair a b) = false := rfl

@[simp] lemma isNetEvent_prompt : isNetEvent .prompt = false := rfl

lemma networkCalls_cons (e : Event) (evs : List Event) :
    networkCalls (e :: evs) = networkCalls evs + (if isNetEvent e then 1 else 0) :=
  List.countP_cons ..

lemma networkCalls_nil : networkCalls [] = 0 := rfl

lemma promptCount_cons (e : Event) (evs : List Event) :
    promptCount (e :: evs) =
      promptCount evs +
        (if (match e with
             | Event.prompt => true
             | _ => false) then 1 else 0) :=
  List.countP_cons ..

lemma promptCount_nil : promptCount [] = 0 := rfl

/-- The token-validation step never prompts. -/
lemma validate_no_prompt (who : WhoamiOutcome) :
    Event.prompt ∉ validateTokenEvents who := by
  cases who <;> simp [validateTokenEvents]

/-- `analyzeSentiment` never prompts. -/
lemma analyzeRun_no_prompt (oracle : Nat → HttpOutcome) (text : String) (k : Nat) :
    Event.prompt ∉ (analyzeSentimentRun oracle text k).events := by
  have hb := tryModels_all_benign oracle text MODELS k
  have hnp := benign_no_prompt hb
  cases hout : (tryModels oracle text MODELS k).outcome <;>
    simp [analyzeSentimentRun, hout, hnp]

/-- Whatever the environment answers, a candidate at the head of the list is
POSTed to. -/
lemma tryModels_first_post (oracle : Nat → HttpOutcome) (text m : String)
    (rest : List String) (k : Nat) :
    Event.httpPost m text ∈ (tryModels oracle text (m :: rest) k).events := by
  rcases hm : testModel (oracle k) m with ⟨d, m1⟩ | ⟨e, m1⟩
  · simp [tryModels, hm]
  · by_cases h5 : strIncludes e "503"
    · rcases hr : testModel (oracle (k + 1)) m with ⟨d, m2⟩ | ⟨e2, m2⟩ <;>
        simp [tryModels, hm, h5, hr]
    · simp [tryModels, hm, h5]

/-! Main-process claim theorems. -/

/-- C7: when the token is unset or empty, the process makes no HTTP call of
any kind, shows no interactive prompt, and prints the fatal configuration
message together with its remediation instructions. -/
theorem claim7_missing_token (token : Option String) (who : WhoamiOutcome)
    (oracle : Nat → HttpOutcome) (inputs : List String)
    (h : tokenFalsy token = true) :
    networkCalls (mainRun token who oracle inputs) = 0 ∧
    promptCount (mainRun token who oracle inputs) = 0 ∧
    Event.logErr "❌ Error: HUGGINGFACE_TOKEN not found in .env file" ∈
      mainRun token who oracle inputs ∧
    Event.log "Please add your Hugging Face token to the .env file:" ∈
      mainRun token who oracle inputs ∧
    Event.log "HUGGINGFACE_TOKEN=your_token_here" ∈ mainRun token who oracle inputs := by
  refine ⟨?_, ?_, ?_, ?_, ?_⟩ <;>
    simp [mainRun, h, networkCalls_cons, networkCalls_nil, promptCount_cons,
      promptCount_nil]

/-- Witness for C7 with the token unset. -/
theorem claim7_witness :
    networkCalls (mainRun none (WhoamiOutcome.ok "u") offlineOracle []) = 0 ∧
    promptCount (mainRun none (WhoamiOutcome.ok "u") offlineOracle []) = 0 ∧
    Event.logErr "❌ Error: HUGGINGFACE_TOKEN not found in .env file" ∈
      mainRun none (WhoamiOutcome.ok "u") offlineOracle [] ∧
    Event.log "Please add your Hugging Face token to the .env file:" ∈
      mainRun none (WhoamiOutcome.ok "u") offlineOracle [] ∧
    Event.log "HUGGINGFACE_TOKEN=your_token_here" ∈
      mainRun none (WhoamiOutcome.ok "u") offlineOracle [] :=
  claim7_missing_token none (WhoamiOutcome.ok "u") offlineOracle [] rfl

/-- A whitespace-only line cannot lower-case to a word containing a
non-whitespace character. -/
lemma trim_empty_toLower_ne {s : String} (h : jsTrim s = "") (c : Char)
    (w : String) (hcw : c ∈ w.data) (hcns : isWsChar c = false) :
    jsToLower s ≠ w := by
  intro hq
  have hd : ((s.data.dropWhile isWsChar).reverse.dropWhile isWsChar).reverse = [] :=
    congrArg String.data h
  rw [List.reverse_eq_nil_iff, List.dropWhile_eq_nil_iff] at hd
  have hall : ∀ a ∈ s.data, isWsChar a = true := by
    intro a ha
    have hsplit := List.takeWhile_append_dropWhile (p := isWsChar) (l := s.data)
    rw [← hsplit] at ha
    rcases List.mem_append.mp ha with h1 | h2
    · exact List.mem_takeWhile_imp h1
    · exact hd a (List.mem_reverse.mpr h2)
  have hc : c ∈ (jsToLower s).data := by rw [hq]; exact hcw
  have hc2 : c ∈ s.data.map lowerChar := hc
  obtain ⟨a, ha, hla⟩ := List.mem_map.mp hc2
  have hwa := hall a ha
  have hfix : lowerChar a = a := by
    have h6 : ((((a = ' ' ∨ a = '\t') ∨ a = '\n') ∨ a = '\r') ∨ a = '\x0b') ∨ a = '\x0c' := by
      simpa [isWsChar] using hwa
    rcases h6 with ((((rfl | rfl) | rfl) | rfl) | rfl) | rfl <;> decide
  rw [hfix] at hla
  rw [hla] at hwa
  rw [hwa] at hcns
  exact Bool.true_eq_false.mp hcns

/-- C8: an empty or whitespace-only input line makes the interactive loop
print the reprompt message and read the next line; it triggers no network
call — the remaining trace is exactly the loop on the rest of the script,
with the same next-call index, so the line contributes zero network calls. -/
theorem claim8_whitespace_reprompt (oracle : Nat → HttpOutcome) (line : String)
    (rest : List String) (k : Nat) (h : jsTrim line = "") :
    loopRun oracle (line :: rest) k =
      Event.prompt :: Event.log "⚠️ Please enter a valid sentence." ::
        loopRun oracle rest k ∧
    networkCalls (loopRun oracle (line :: rest) k) =
      networkCalls (loopRun oracle rest k) := by
  have hq := trim_empty_toLower_ne h 'q' "quit" (by decide) (by decide)
  have he := trim_empty_toLower_ne h 'e' "exit" (by decide) (by decide)
  have h1 : loopRun oracle (line :: rest) k =
      Event.prompt :: Event.log "⚠️ Please enter a valid sentence." ::
        loopRun oracle rest k := by
    simp [loopRun, hq, he, h]
  refine ⟨h1, ?_⟩
  rw [h1, networkCalls_cons, networkCalls_cons]
  simp

/-- Witness for C8 on the single-space line. -/
theorem claim8_witness :
    loopRun offlineOracle [" "] 0 =
      Event.prompt :: Event.log "⚠️ Please enter a valid sentence." ::
        loopRun offlineOracle [] 0 :=
  (claim8_whitespace_reprompt offlineOracle " " [] 0 rfl).1

/-- C9: the very first observable action of every run — before the banner,
the token-presence check, any validation, any network call and any prompt —
prints the raw token value to standard output; consequently two runs that
differ only in the token value produce different console output. -/
theorem claim9_token_printed :
    (∀ (token : Option String) (who : WhoamiOutcome) (oracle : Nat → HttpOutcome)
        (inputs : List String),
      ∃ tail, mainRun token who oracle inputs =
        Event.logPair "token: " (tokStr token) :: tail) ∧
    (∀ (t1 t2 : String) (who : WhoamiOutcome) (oracle : Nat → HttpOutcome)
        (inputs : List String), t1 ≠ t2 →
      mainRun (some t1) who oracle inputs ≠ mainRun (some t2) who oracle inputs) := by
  constructor
  · intro token who oracle inputs
    exact ⟨_, rfl⟩
  · intro t1 t2 who oracle inputs hne heq
    have h1 := congrArg List.head? heq
    simp [mainRun, tokStr] at h1
    exact hne h1

/-- Witness for C9: two runs differing only in the token value differ. -/
theorem claim9_witness :
    mainRun (some "a") (WhoamiOutcome.ok "u") offlineOracle [] ≠
      mainRun (some "b") (WhoamiOutcome.ok "u") offlineOracle [] :=
  claim9_token_printed.2 "a" "b" (WhoamiOutcome.ok "u") offlineOracle [] (by decide)

/-- C10: whenever a (non-empty) token is present, the trace is the startup
prefix, then a complete sentiment analysis of the fixed text `I love this!`,
then the interactive loop; no prompt occurs in the prefix or in the analysis,
and the analysis POSTs to the first candidate model — so network calls happen
before any user input. -/
theorem claim10_startup_analysis (t : String) (who : WhoamiOutcome)
    (oracle : Nat → HttpOutcome) (inputs : List String) (h : t ≠ "") :
    mainRun (some t) who oracle inputs =
      (Event.logPair "token: " t ::
       Event.log "🤖 AI Sentiment Analysis Tool" ::
       Event.log "===============================" ::
       Event.log "🔐 Validating API token..." ::
       (validateTokenEvents who ++ [Event.log "🧪 Testing API with a simple sentence..."])) ++
      (analyzeSentimentRun oracle "I love this!" 0).events ++
      (if (analyzeSentimentRun oracle "I love this!" 0).threw then []
       else loopRun oracle inputs (analyzeSentimentRun oracle "I love this!" 0).nextIdx) ∧
    Event.prompt ∉
      (Event.logPair "token: " t ::
       Event.log "🤖 AI Sentiment Analysis Tool" ::
       Event.log "===============================" ::
       Event.log "🔐 Validating API token..." ::
       (validateTokenEvents who ++ [Event.log "🧪 Testing API with a simple sentence..."])) ∧
    Event.prompt ∉ (analyzeSentimentRun oracle "I love this!" 0).events ∧
    Event.httpPost "cardiffnlp/twitter-roberta-base-sentiment-latest" "I love this!" ∈
      (analyzeSentimentRun oracle "I love this!" 0).events := by
  have hf : tokenFalsy (some t) = false := by simp [tokenFalsy, h]
  refine ⟨?_, ?_, ?_, ?_⟩
  · simp [mainRun, hf, tokStr]
  · simp [validate_no_prompt who]
  · exact analyzeRun_no_prompt oracle "I love this!" 0
  · have h2 : Event.httpPost "cardiffnlp/twitter-roberta-base-sentiment-latest"
        "I love this!" ∈ (tryModels oracle "I love this!" MODELS 0).events := by
      rw [show MODELS = "cardiffnlp/twitter-roberta-base-sentiment-latest" ::
        ["distilbert-base-uncased-finetuned-sst-2-english",
         "cardiffnlp/twitter-roberta-base-sentiment",
         "nlptown/bert-base-multilingual-uncased-sentiment"] from rfl]
      exact tryModels_first_post oracle "I love this!" _ _ 0
    cases hout : (tryModels oracle "I love this!" MODELS 0).outcome <;>
      simp [analyzeSentimentRun, hout, h2]

/-- Witness for C10 at a concrete token and offline environment. -/
theorem claim10_witness :
    Event.httpPost "cardiffnlp/twitter-roberta-base-sentiment-latest" "I love this!" ∈
      (analyzeSentimentRun offlineOracle "I love this!" 0).events :=
  (claim10_startup_analysis "tok" (WhoamiOutcome.ok "u") offlineOracle []
    (by decide)).2.2.2

end App
